import Mathlib

/-!
Shallow embedding of the weather notification scripts `function_app.py`
(OpenWeather "one-call" variant, namespace `FA`) and `weather_notifier.py`
(AccuWeather variant, namespace `WN`).  HTTP responses, already decoded from
JSON, are passed in as values: `none` at the outer layer stands for a
transport error (`requests.exceptions.RequestException`), and `Option` fields
inside payload records stand for keys that may be absent from the decoded
dictionaries.  Python `float` values are modelled as rationals and Python
exceptions as `Option`/explicit outcome constructors.
-/

/-- Raw image bytes (`requests.Response.content`). -/
abbrev Bytes := List Nat

/-- A Python value that is either a number or a string, for dictionary slots
whose runtime type is not fixed (e.g. wind degrees fed to `get_wind_direction`,
or the `uvi` field that the adapter stores either as a number or as "N/A"). -/
inductive PyVal where
  | num (q : ℚ)
  | str (s : String)
deriving DecidableEq

/-- Python `int(x)` on a float/rational value: truncation toward zero.
On a normalised rational this is the truncating division of the numerator
by the denominator. -/
def pyTrunc (q : ℚ) : Int := q.num.tdiv q.den

/-- Python `math.floor` semantics on a rational, by Euclidean division of the
numerator by the (positive) denominator; agrees with `Int.floor`. -/
def ratFloor (q : ℚ) : Int := q.num / (q.den : Int)

/-- Python 3 `round(x)`: round half to even (banker's rounding). -/
def roundHalfEven (q : ℚ) : Int :=
  let f := ratFloor q
  let r := q - (f : ℚ)
  if r < 1/2 then f
  else if 1/2 < r then f + 1
  else if f % 2 = 0 then f else f + 1

/-- Python `round(x, 1)`: rounding to one decimal place. -/
def pyRound1 (q : ℚ) : ℚ := (roundHalfEven (q * 10) : ℚ) / 10

/-- Python `str.capitalize()`: first character upper-cased, the rest
lower-cased. -/
def pyCapitalize (s : String) : String :=
  match s.data with
  | [] => ""
  | c :: cs => String.mk (c.toUpper :: cs.map Char.toLower)

/-- The value of a list of decimal digit characters, or `none` when the list
is empty or holds a non-digit. -/
def digitsVal : List Char → Option Nat
  | [] => none
  | cs =>
    if cs.all Char.isDigit then
      some (cs.foldl (fun acc c => acc * 10 + (c.toNat - 48)) 0)
    else none

/-- Python `int(s)` on a string: optional sign followed by decimal digits;
`none` models the `ValueError` that any other string raises.  (Surrounding
whitespace and underscore separators, which Python also accepts, do not occur
in the inputs this program reads.) -/
def parsePyInt (s : String) : Option Int :=
  match s.data with
  | '-' :: rest => (digitsVal rest).map (fun n => -(n : Int))
  | '+' :: rest => (digitsVal rest).map (fun n => (n : Int))
  | cs => (digitsVal cs).map (fun n => (n : Int))

/-- Python `float(s)` on a string, for the plain decimal forms
`[sign] digits [. digits]` that configuration values take; `none` models the
`ValueError` raised for anything else. -/
def parsePyFloat (s : String) : Option ℚ :=
  let core : List Char → Option ℚ := fun cs =>
    match cs.splitOn '.' with
    | [whole] => (digitsVal whole).map (fun n => (n : ℚ))
    | [whole, frac] =>
      match digitsVal whole, digitsVal frac with
      | some w, some f => some ((w : ℚ) + (f : ℚ) / ((10 : ℚ) ^ frac.length))
      | _, _ => none
    | _ => none
  match s.data with
  | '-' :: rest => (core rest).map (fun q => -q)
  | '+' :: rest => core rest
  | cs => core cs

/-- Zero-pad a natural number to two digits, as `"%M"`-style fields print. -/
def pad2 (n : Nat) : String := if n < 10 then "0" ++ toString n else toString n

/-- Gregorian calendar date for a count of days since 1970-01-01 (the civil
calendar conversion used by `datetime.fromtimestamp(..., tz=utc)`). -/
def civilFromDays (days : Int) : Int × Nat × Nat :=
  let z := days + 719468
  let era := Int.fdiv z 146097
  let doe := (z - era * 146097).toNat
  let yoe := (doe - doe / 1460 + doe / 36524 - doe / 146096) / 365
  let doy := doe - (365 * yoe + yoe / 4 - yoe / 100)
  let mp := (5 * doy + 2) / 153
  let d := doy - (153 * mp + 2) / 5 + 1
  let m := if mp < 10 then mp + 3 else mp - 9
  (era * 400 + yoe + (if m ≤ 2 then 1 else 0), m, d)

/-- `datetime.fromtimestamp(t, tz=utc).strftime("%Y-%m-%d")`. -/
def fmtDate (t : Int) : String :=
  let c := civilFromDays (Int.fdiv t 86400)
  toString c.1 ++ "-" ++ pad2 c.2.1 ++ "-" ++ pad2 c.2.2

/-- `datetime.fromtimestamp(t, tz=utc).strftime("%A")`: the weekday name
(day 0 of the epoch, 1970-01-01, was a Thursday). -/
def dayName (t : Int) : String :=
  ["Thursday", "Friday", "Saturday", "Sunday", "Monday", "Tuesday",
   "Wednesday"].getD ((Int.fdiv t 86400).emod 7).toNat "N/A"

/-- Render an hour/minute pair in the `"%I:%M%p"` 12-hour clock format,
with the given `"%Z"` timezone suffix appended after a space. -/
def fmt12h (h m : Nat) (tz : String) : String :=
  pad2 ((h + 11) % 12 + 1) ++ ":" ++ pad2 m ++ (if h < 12 then "AM" else "PM")
    ++ " " ++ tz

/-- `datetime.fromtimestamp(t, tz=utc).strftime("%I:%M%p %Z")` for an epoch
second count (the `%Z` of `timezone.utc` prints as "UTC"). -/
def fmtTime12h (t : Int) : String :=
  let secs := (t.emod 86400).toNat
  fmt12h (secs / 3600) (secs % 3600 / 60) "UTC"

/-- The decimal value of two digit characters, or `none`. -/
def twoDigits (a b : Char) : Option Nat :=
  if a.isDigit ∧ b.isDigit then some ((a.toNat - 48) * 10 + (b.toNat - 48))
  else none

/-- `datetime.fromisoformat(s).strftime("%I:%M%p %Z")` for the
`YYYY-MM-DDTHH:MM:SS[±HH:MM]` timestamps the AccuWeather payload carries:
`none` models the `ValueError` raised for a string not of this shape.  A
datetime carrying a fixed offset prints its `%Z` as `UTC±HH:MM`; a naive
one prints an empty `%Z`. -/
def isoFmt12h (s : String) : Option String :=
  match s.data with
  | y1 :: y2 :: y3 :: y4 :: '-' :: m1 :: m2 :: '-' :: d1 :: d2 :: sep :: h1 ::
      h2 :: ':' :: n1 :: n2 :: ':' :: s1 :: s2 :: rest =>
    if [y1, y2, y3, y4, m1, m2, d1, d2, s1, s2].all Char.isDigit ∧
        (sep = 'T' ∨ sep = ' ') then
      match twoDigits h1 h2, twoDigits n1 n2 with
      | some h, some n =>
        match rest with
        | [] => some (fmt12h h n "")
        | sgn :: o1 :: o2 :: ':' :: o3 :: o4 :: [] =>
          if (sgn = '+' ∨ sgn = '-') ∧ [o1, o2, o3, o4].all Char.isDigit then
            some (fmt12h h n ("UTC" ++ String.mk [sgn, o1, o2, ':', o3, o4]))
          else none
        | _ => none
      | _, _ => none
    else none
  | _ => none

/-- `str(n).zfill(2)` for the AccuWeather icon number. -/
def zfill2 (n : Nat) : String :=
  let s := toString n
  if s.length < 2 then "0" ++ s else s

/-- The 16-label compass table shared by both scripts. -/
def directionsTable : List String :=
  ["N", "NNE", "NE", "ENE", "E", "ESE", "SE", "SSE",
   "S", "SSW", "SW", "WSW", "W", "WNW", "NW", "NNW"]

namespace FA

/-- Via `function_app.get_wind_direction`: `None` yields "N/A"; a number `d`
indexes the table at `int((d + 11.25) / 22.5) % 16` (Python `int` truncates
toward zero, `%` returns a non-negative remainder); a string raises
`TypeError` in the addition, which the function catches and turns into
"N/A". -/
def get_wind_direction : Option PyVal → String
  | none => "N/A"
  | some (.num q) =>
    directionsTable.getD ((pyTrunc ((q + 11.25) / 22.5)).emod 16).toNat "N/A"
  | some (.str _) => "N/A"

end FA

namespace WN

/-- Via `weather_notifier.get_wind_direction`: as in `FA.get_wind_direction`
but the argument is first coerced with `degrees = int(degrees)`, so a numeric
string is parsed and a float truncated before the table lookup; a
non-numeric string raises `ValueError` there, caught as "N/A". -/
def get_wind_direction : Option PyVal → String
  | none => "N/A"
  | some v =>
    match (match v with
           | .num q => some (pyTrunc q)
           | .str s => parsePyInt s) with
    | none => "N/A"
    | some d =>
      directionsTable.getD
        ((pyTrunc (((d : ℚ) + 11.25) / 22.5)).emod 16).toNat "N/A"

end WN

namespace FA

/-- One element of a day's `weather` array in the one-call payload. -/
structure OCWeatherItem where
  description : Option String
  icon : Option String
deriving DecidableEq

/-- The `temp` dictionary of a one-call daily entry. -/
structure OCTemp where
  max : Option ℚ
  min : Option ℚ
deriving DecidableEq

/-- One entry of the one-call payload's `daily` array.  Each field is the
value found under the corresponding key, `none` when the key is absent. -/
structure OCDaily where
  weather : Option (List OCWeatherItem)
  temp : Option OCTemp
  wind_speed : Option ℚ
  wind_deg : Option PyVal
  humidity : Option Int
  dew_point : Option ℚ
  rain : Option ℚ
  pop : Option ℚ
  uvi : Option ℚ
  sunrise : Option Int
  sunset : Option Int
  dt : Option Int
deriving DecidableEq

/-- The decoded one-call response body: the value under `"daily"`, `none`
when that key is absent. -/
structure OCResp where
  daily : Option (List OCDaily)
deriving DecidableEq

/-- One canonical forecast dictionary as `get_weekly_weather` builds it. -/
structure OCForecast where
  weather_desc : String
  icon : String
  high_temp : ℚ
  low_temp : ℚ
  wind_speed : ℚ
  wind_direction : String
  humidity : Int
  dew_point : ℚ
  precipitation : ℚ
  precip_chance : ℚ
  uv_index : PyVal
  sunrise : String
  sunset : String
  date_obj : Int
  date_str : String
  day_name : String
deriving DecidableEq

/-- The body of `get_weekly_weather`'s per-day loop.  Subscripted keys
(`weather[0]`, `temp`, `humidity`, `sunrise`, `sunset`, `dt`) raise
`KeyError`/`IndexError` when absent — modelled as `none`, which the caller
turns into failure of the whole fetch — while the `.get`-accessed keys
fall back to their defaults. -/
def parse_oc_daily (d : OCDaily) : Option OCForecast := do
  let ws ← d.weather
  let w0 ← ws.head?
  let desc ← w0.description
  let icon ← w0.icon
  let t ← d.temp
  let tmax ← t.max
  let tmin ← t.min
  let hum ← d.humidity
  let sr ← d.sunrise
  let ss ← d.sunset
  let dt ← d.dt
  pure
    { weather_desc := pyCapitalize desc
      icon := icon
      high_temp := pyRound1 tmax
      low_temp := pyRound1 tmin
      wind_speed := pyRound1 (d.wind_speed.getD 0)
      wind_direction := FA.get_wind_direction d.wind_deg
      humidity := hum
      dew_point := pyRound1 (d.dew_point.getD 0)
      precipitation := pyRound1 (d.rain.getD 0)
      precip_chance := pyRound1 (d.pop.getD 0 * 100)
      uv_index := match d.uvi with
        | some q => .num q
        | none => .str "N/A"
      sunrise := fmtTime12h sr
      sunset := fmtTime12h ss
      date_obj := dt
      date_str := fmtDate dt
      day_name := dayName dt }

/-- The loop of `get_weekly_weather` over `data["daily"][1:8]`: an exception
while parsing any entry is caught outside the loop, discarding the whole
result. -/
def parse_oc_all : List OCDaily → Option (List OCForecast)
  | [] => some []
  | d :: ds =>
    match parse_oc_daily d with
    | none => none
    | some f =>
      match parse_oc_all ds with
      | none => none
      | some fs => some (f :: fs)

/-- `function_app.get_weekly_weather`, applied to the already-decoded
response: `none` for a transport error, a missing `"daily"` key, or a parse
exception inside the loop. -/
def get_weekly_weather (resp : Option OCResp) : Option (List OCForecast) :=
  match resp with
  | none => none
  | some r =>
    match r.daily with
    | none => none
    | some ds => parse_oc_all ((ds.drop 1).take 7)

end FA

namespace WN

/-- One entry of the payload's `AirAndPollen` array. -/
structure AAPItem where
  name : Option String
  value : Option Int
  category : Option String
deriving DecidableEq

/-- One entry of the AccuWeather payload's `DailyForecasts` array.  Each
field is the value found at the end of the `.get`-chain the code walks
(e.g. `tempMaxValue` is `Temperature.Maximum.Value`); `none` when any key
on that path is absent, in which case the chained `.get` defaults apply. -/
structure AWDaily where
  iconPhrase : Option String
  icon : Option Nat
  tempMaxValue : Option ℚ
  tempMinValue : Option ℚ
  windSpeedValue : Option ℚ
  windDirectionDegrees : Option PyVal
  rainValue : Option ℚ
  snowValue : Option ℚ
  iceValue : Option ℚ
  precipProb : Option ℚ
  airAndPollen : List AAPItem
  epochDate : Option Int
  sunRise : Option String
  sunSet : Option String
deriving DecidableEq

/-- One canonical forecast dictionary as `get_accuweather_forecast` builds
it (`humidity` and `dew_point` are the literal string "N/A" in this
variant). -/
structure AWForecast where
  weather_desc : String
  icon : Option Nat
  high_temp : ℚ
  low_temp : ℚ
  wind_speed : ℚ
  wind_direction : String
  humidity : String
  dew_point : String
  precipitation : ℚ
  precip_chance : ℚ
  uv_index : String
  sunrise : String
  sunset : String
  date_obj : Option Int
  date_str : String
  day_name : String
deriving DecidableEq

/-- How an f-string prints an optional number: `None` or its repr. -/
def optIntStr : Option Int → String
  | none => "None"
  | some v => toString v

/-- How an f-string prints an optional string here (the payload's
`Category` values are strings). -/
def optStrStr : Option String → String
  | none => "None"
  | some s => s

/-- The `try` block around the sunrise/sunset parse: `none` is the
`ValueError` path (where the code sets both fields to "N/A"), `some none`
an absent timestamp (formatted as "N/A"), `some (some f)` a parsed and
formatted one. -/
def sunStep : Option String → Option (Option String)
  | none => some none
  | some s => (isoFmt12h s).map some

/-- The body of `get_accuweather_forecast`'s per-day loop, which never
raises: every access goes through `.get` with a default. -/
def parse_aw_daily (d : AWDaily) : AWForecast :=
  let uvInfo := d.airAndPollen.find? (fun i => i.name == some "UVIndex")
  let precipValue := d.rainValue.getD 0 + d.snowValue.getD 0 + d.iceValue.getD 0
  let dateObj : Option Int :=
    match d.epochDate with
    | some e => if e = 0 then none else some e
    | none => none
  let sun : String × String :=
    match sunStep d.sunRise, sunStep d.sunSet with
    | some r, some s => (r.getD "N/A", s.getD "N/A")
    | _, _ => ("N/A", "N/A")
  { weather_desc := pyCapitalize (d.iconPhrase.getD "N/A")
    icon := d.icon
    high_temp := pyRound1 (d.tempMaxValue.getD 0)
    low_temp := pyRound1 (d.tempMinValue.getD 0)
    wind_speed :=
      match d.windSpeedValue with
      | some v => pyRound1 (v / 3.6)
      | none => 0
    wind_direction := WN.get_wind_direction d.windDirectionDegrees
    humidity := "N/A"
    dew_point := "N/A"
    precipitation := pyRound1 precipValue
    precip_chance := d.precipProb.getD 0
    uv_index :=
      match uvInfo with
      | some i => optIntStr i.value ++ " (" ++ optStrStr i.category ++ ")"
      | none => "N/A"
    sunrise := sun.1
    sunset := sun.2
    date_obj := dateObj
    date_str :=
      match dateObj with
      | some e => fmtDate e
      | none => "N/A"
    day_name :=
      match dateObj with
      | some e => dayName e
      | none => "N/A" }

/-- The `days not in [1, 5, 10, 15]` guard at the top of
`get_accuweather_forecast`: any unsupported request is replaced by 5. -/
def clampDays (days : Int) : Int :=
  if days = 1 ∨ days = 5 ∨ days = 10 ∨ days = 15 then days else 5

/-- The sort key `x["date_obj"] or datetime.min` (epoch seconds of
`datetime.min`, year 1, for a missing date). -/
def dateKey (f : AWForecast) : Int :=
  match f.date_obj with
  | some e => e
  | none => -62135596800

/-- The comparison `sort(key=...)` uses. -/
def awLe (a b : AWForecast) : Bool := dateKey a ≤ dateKey b

/-- `weather_notifier.get_accuweather_forecast`, applied to the
already-decoded response: the outer `none` is a transport error, the inner
`none` a falsy body or one with no `"DailyForecasts"` key.  The per-day
records are built, sorted by date (Python's stable sort) and truncated to
the requested day count. -/
def get_accuweather_forecast (days : Int)
    (resp : Option (Option (List AWDaily))) : Option (List AWForecast) :=
  let days := clampDays days
  match resp with
  | none => none
  | some none => none
  | some (some l) =>
    some (((l.map parse_aw_daily).mergeSort awLe).take days.toNat)

/-- `weather_notifier.get_accuweather_location_key`, applied to the decoded
response: the outer `none` is a transport error, the inner layer the `"Key"`
entry when the body is a dictionary holding one. -/
def get_accuweather_location_key (resp : Option (Option String)) :
    Option String :=
  match resp with
  | none => none
  | some none => none
  | some (some k) => some k

/-- An icon slot of the rendered HTML: either an `<img src="cid:...">`
reference or the text fallback the code writes instead. -/
inductive Cell where
  | img (cid : String)
  | text (t : String)
deriving DecidableEq

/-- Python truthiness of a `bytes` value. -/
def bytesTruthy (b : Bytes) : Bool := !b.isEmpty

/-- The content-id `f"summary_icon_{date_str}_{icon_code_str}"`. -/
def summaryCid (dateStr k : String) : String :=
  "summary_icon_" ++ dateStr ++ "_" ++ k

/-- State threaded through `main`'s summary-strip loop: the `fetched_icons`
cache (a dict, represented as its insertion-ordered entries), the
`email_images` list, the icon slots written to the HTML so far, and the log
of icon references actually requested over HTTP. -/
structure RenderSt where
  fetched_icons : List (String × Option Bytes)
  email_images : List (Bytes × String)
  summary : List Cell
  fetchedRefs : List String
deriving DecidableEq

/-- One iteration of the summary-strip loop (`for day_forecast in
forecast_data` building the summary container): fetch the icon only when its
reference is not yet cached, record a failed fetch as a cached `None`, reuse
cached bytes for a new day's content-id unless that content-id is already
attached, and emit an image slot only when the cache holds truthy bytes. -/
def summaryStep (fetchIcon : String → Option Bytes) (st : RenderSt)
    (day : AWForecast) : RenderSt :=
  match day.icon with
  | some n =>
    if n ≠ 0 then
      let k := zfill2 n
      let cid := summaryCid day.date_str k
      let st' :=
        match st.fetched_icons.lookup k with
        | none =>
          match fetchIcon k with
          | some b =>
            { st with
                fetched_icons := st.fetched_icons ++ [(k, some b)]
                email_images := st.email_images ++ [(b, cid)]
                fetchedRefs := st.fetchedRefs ++ [k] }
          | none =>
            { st with
                fetched_icons := st.fetched_icons ++ [(k, none)]
                fetchedRefs := st.fetchedRefs ++ [k] }
        | some cached =>
          match cached with
          | some b =>
            if bytesTruthy b ∧ ¬ st.email_images.any (fun e => e.2 == cid)
            then { st with email_images := st.email_images ++ [(b, cid)] }
            else st
          | none => st
      match (st'.fetched_icons.lookup k).join with
      | some b =>
        if bytesTruthy b then { st' with summary := st'.summary ++ [.img cid] }
        else { st' with summary := st'.summary ++ [.text day.weather_desc] }
      | none => { st' with summary := st'.summary ++ [.text day.weather_desc] }
    else { st with summary := st.summary ++ [.text day.weather_desc] }
  | none => { st with summary := st.summary ++ [.text day.weather_desc] }

/-- One iteration of the detailed-sections loop, which only reads the cache
built by the summary loop: `img_tag` defaults to the "(icon unavailable)"
text and becomes an image reference only when the cache holds truthy bytes
for this day's icon. -/
def detailCell (dict : List (String × Option Bytes)) (day : AWForecast) :
    Cell :=
  match day.icon with
  | some n =>
    if n ≠ 0 then
      let k := zfill2 n
      let cid := summaryCid day.date_str k
      match (dict.lookup k).join with
      | some b =>
        if bytesTruthy b then .img cid
        else .text (day.weather_desc ++ " - icon unavailable")
      | none => .text (day.weather_desc ++ " - icon unavailable")
    else .text "icon unavailable"
  | none => .text "icon unavailable"

/-- What `main`'s HTML-building section produces: the embedded images, the
icon slot of each day's summary entry and of each day's detailed section,
and the references fetched over HTTP. -/
structure RenderResult where
  email_images : List (Bytes × String)
  summary : List Cell
  detail : List Cell
  fetchedRefs : List String
deriving DecidableEq

/-- The HTML-building section of `main`: the summary loop followed by the
detail loop over the same forecast list. -/
def render (fetchIcon : String → Option Bytes) (forecast : List AWForecast) :
    RenderResult :=
  let st := forecast.foldl (summaryStep fetchIcon) ⟨[], [], [], []⟩
  { email_images := st.email_images
    summary := st.summary
    detail := forecast.map (detailCell st.fetched_icons)
    fetchedRefs := st.fetchedRefs }

/-- The environment variables `main` reads (`None` for an unset one). -/
structure Config where
  accuweather_api_key : Option String
  gmail_user : Option String
  gmail_password : Option String
  to_email : Option String
  lat : Option String
  lon : Option String
  city_name : Option String
  forecast_days : Option String
deriving DecidableEq

/-- Python truthiness of an optional environment value: set and non-empty. -/
def envSet : Option String → Bool
  | none => false
  | some s => !s.isEmpty

/-- The `missing_vars` check of `main` over its six required variables. -/
def requiredOk (cfg : Config) : Bool :=
  envSet cfg.accuweather_api_key && envSet cfg.gmail_user &&
    envSet cfg.gmail_password && envSet cfg.to_email && envSet cfg.lat &&
    envSet cfg.lon

/-- How one invocation of `main` ends.  `Crashed` is an exception escaping
`main` (nothing in the script catches it); the `Skipped*` constructors are
its early `return`s, in the order the code takes them. -/
inductive Outcome where
  | Sent
  | SkippedMissingConfig
  | SkippedInvalidConfig
  | SkippedFetchFailure
  | Crashed
deriving DecidableEq

/-- The outward effects `main` can perform, in order. -/
inductive Action where
  | httpLocation
  | httpForecast
  | httpIcon (ref : String)
  | emailSend
deriving DecidableEq

/-- `weather_notifier.main`, with the two provider responses and the icon
fetcher passed in for the HTTP calls it makes.  Note the coercion
`forecast_days = int(os.getenv("FORECAST_DAYS", "5"))` runs before any
validation and outside any `try`, so a non-numeric value raises an uncaught
`ValueError`. -/
def main (cfg : Config) (locResp : Option (Option String))
    (fcResp : Option (Option (List AWDaily)))
    (fetchIcon : String → Option Bytes) : Outcome × List Action :=
  match parsePyInt (cfg.forecast_days.getD "5") with
  | none => (.Crashed, [])
  | some forecast_days =>
    if !requiredOk cfg then (.SkippedMissingConfig, [])
    else if !((parsePyFloat (cfg.lat.getD "")).isSome &&
        (parsePyFloat (cfg.lon.getD "")).isSome &&
        (1 ≤ forecast_days && forecast_days ≤ 15)) then
      (.SkippedInvalidConfig, [])
    else
      match get_accuweather_location_key locResp with
      | none => (.SkippedFetchFailure, [.httpLocation])
      | some _ =>
        match get_accuweather_forecast forecast_days fcResp with
        | some (f :: fs) =>
          let r := render fetchIcon (f :: fs)
          (.Sent, .httpLocation :: .httpForecast ::
            (r.fetchedRefs.map .httpIcon ++ [.emailSend]))
        | _ => (.SkippedFetchFailure, [.httpLocation, .httpForecast])

end WN

namespace FA

/-- The environment variables `WeatherAlert` reads. -/
structure FAConfig where
  openweather_api_key : Option String
  gmail_user : Option String
  gmail_password : Option String
  to_email : Option String
  lat : Option String
  lon : Option String
  city_name : Option String
deriving DecidableEq

/-- The `missing_vars` check of `WeatherAlert`. -/
def requiredOk (cfg : FAConfig) : Bool :=
  WN.envSet cfg.openweather_api_key && WN.envSet cfg.gmail_user &&
    WN.envSet cfg.gmail_password && WN.envSet cfg.to_email &&
    WN.envSet cfg.lat && WN.envSet cfg.lon

/-- How one invocation of `WeatherAlert` ends (its early `return`s, in code
order, against the completed send). -/
inductive FAOutcome where
  | Sent
  | SkippedMissingConfig
  | SkippedInvalidConfig
  | SkippedFetchFailure
deriving DecidableEq

/-- The outward effects `WeatherAlert` can perform. -/
inductive FAAction where
  | httpWeather
  | httpIcon (ref : String)
  | emailSend
deriving DecidableEq

/-- One iteration of `WeatherAlert`'s per-day HTML loop: this variant
fetches every day's icon anew (no cache), attaches the bytes under the
content-id `f"icon_{date_str}_{icon}"` on success and falls back to the
"(icon unavailable)" text on failure. -/
def dayStep (fetchIcon : String → Option Bytes)
    (st : List (Bytes × String) × List WN.Cell) (day : OCForecast) :
    List (Bytes × String) × List WN.Cell :=
  let cid := "icon_" ++ day.date_str ++ "_" ++ day.icon
  match fetchIcon day.icon with
  | some b => (st.1 ++ [(b, cid)], st.2 ++ [.img cid])
  | none => (st.1, st.2 ++ [.text "icon unavailable"])

/-- The email images and icon slots `WeatherAlert` builds for a forecast. -/
def renderAll (fetchIcon : String → Option Bytes)
    (forecast : List OCForecast) : List (Bytes × String) × List WN.Cell :=
  forecast.foldl (dayStep fetchIcon) ([], [])

/-- `function_app.WeatherAlert`, with the provider response and icon fetcher
passed in. -/
def WeatherAlert (cfg : FAConfig) (resp : Option OCResp)
    (fetchIcon : String → Option Bytes) : FAOutcome × List FAAction :=
  if !requiredOk cfg then (.SkippedMissingConfig, [])
  else if !((parsePyFloat (cfg.lat.getD "")).isSome &&
      (parsePyFloat (cfg.lon.getD "")).isSome) then
    (.SkippedInvalidConfig, [])
  else
    match get_weekly_weather resp with
    | some (f :: fs) =>
      let _r := renderAll fetchIcon (f :: fs)
      (.Sent, .httpWeather ::
        ((f :: fs).map (fun d => FAAction.httpIcon d.icon) ++ [.emailSend]))
    | _ => (.SkippedFetchFailure, [.httpWeather])

end FA

/-- Modelled from the spec: the compass formula as section 4.1 words it,
`direction_index = round((degrees + 11.25) / 22.5) mod 16` with Python's
banker's rounding, indexing the same 16-label table.  Stated for comparison
with the implementations' `int(...)` truncation. -/
def compass_spec_round (d : Int) : String :=
  directionsTable.getD
    ((roundHalfEven (((d : ℚ) + 11.25) / 22.5)).emod 16).toNat "N/A"

/-- Modelled from the spec: "values outside the provider's supported set are
clamped to the nearest supported value", i.e. the member of {1, 5, 10, 15}
minimising the distance to the request (first wins on ties).  Stated for
comparison with `WN.clampDays`. -/
def nearest_supported_spec (d : Int) : Int :=
  [1, 5, 10, 15].foldl
    (fun best s => if (d - s).natAbs < (d - best).natAbs then s else best) 1

/-- The compass formula both implementations actually compute on a numeric
degree value: `int((d + 11.25) / 22.5) % 16` with truncation toward zero —
the amended form of the spec's `round(...)` formula. -/
def compass_trunc_spec (d : Int) : String :=
  directionsTable.getD
    ((pyTrunc (((d : ℚ) + 11.25) / 22.5)).emod 16).toNat "N/A"

namespace WN

/-- The icon slot the summary loop emits for one day, as a function of the
day and the fetcher alone.  `summaryStep` provably emits exactly this
whenever its cache holds only previous fetch results (the cache cannot
change the outcome, only spare the repeated request). -/
def summaryCellSpec (fetchIcon : String → Option Bytes) (day : AWForecast) :
    Cell :=
  match day.icon with
  | some n =>
    if n ≠ 0 then
      match fetchIcon (zfill2 n) with
      | some b =>
        if bytesTruthy b then .img (summaryCid day.date_str (zfill2 n))
        else .text day.weather_desc
      | none => .text day.weather_desc
    else .text day.weather_desc
  | none => .text day.weather_desc

/-- The icon slot the detail loop emits for one day, again as a function of
the day and the fetcher alone. -/
def detailCellSpec (fetchIcon : String → Option Bytes) (day : AWForecast) :
    Cell :=
  match day.icon with
  | some n =>
    if n ≠ 0 then
      match fetchIcon (zfill2 n) with
      | some b =>
        if bytesTruthy b then .img (summaryCid day.date_str (zfill2 n))
        else .text (day.weather_desc ++ " - icon unavailable")
      | none => .text (day.weather_desc ++ " - icon unavailable")
    else .text "icon unavailable"
  | none => .text "icon unavailable"

/-- The content-id a day can contribute to `email_images` (none when its
icon slot is falsy). -/
def dayCid (day : AWForecast) : Option String :=
  match day.icon with
  | some n =>
    if n ≠ 0 then some (summaryCid day.date_str (zfill2 n)) else none
  | none => none

/-- The `fetched_icons` cache holds exactly the fetcher's answers: the
invariant `summaryStep` maintains. -/
def CacheInv (fetchIcon : String → Option Bytes)
    (dict : List (String × Option Bytes)) : Prop :=
  ∀ p ∈ dict, p.2 = fetchIcon p.1

end WN

namespace FA

/-- The icon slot `WeatherAlert`'s per-day loop emits, as a function of the
day and the fetcher. -/
def faCellSpec (fetchIcon : String → Option Bytes) (day : OCForecast) :
    WN.Cell :=
  match fetchIcon day.icon with
  | some _ => .img ("icon_" ++ day.date_str ++ "_" ++ day.icon)
  | none => .text "icon unavailable"

end FA

section Samples

/-- A one-call daily entry with every key absent: it stands for the current
day, which `get_weekly_weather` drops before parsing. -/
def ocToday : FA.OCDaily :=
  ⟨none, none, none, none, none, none, none, none, none, none, none, none⟩

/-- A fully-populated one-call daily entry (2025-05-20). -/
def ocDay1 : FA.OCDaily :=
  ⟨some [⟨some "light rain", some "10d"⟩], some ⟨some 12.3, some 5.6⟩,
   some 4.2, some (.num 200), some 55, some 3.1, some 1.2, some 0.45, some 5,
   some 1747719660, some 1747772520, some 1747699200⟩

/-- The following day (2025-05-21), fully populated. -/
def ocDay2 : FA.OCDaily :=
  { ocDay1 with dt := some 1747785600, humidity := some 60 }

/-- `ocDay2` with only its `humidity` key removed. -/
def ocDay2noHum : FA.OCDaily := { ocDay2 with humidity := none }

/-- `ocDay2` with every `.get`-accessed optional key removed. -/
def ocDay2noOpt : FA.OCDaily :=
  { ocDay2 with
      wind_speed := none
      wind_deg := none
      dew_point := none
      rain := none
      pop := none
      uvi := none }

/-- An AccuWeather daily entry with every key absent. -/
def awEmptyDaily : WN.AWDaily :=
  ⟨none, none, none, none, none, none, none, none, none, none, [], none,
   none, none⟩

/-- An otherwise-empty AccuWeather daily entry with the given epoch date. -/
def awDailyAt (e : Int) : WN.AWDaily := { awEmptyDaily with epochDate := some e }

/-- A canonical AccuWeather forecast record for 2025-05-20 with icon 1. -/
def awDayA : WN.AWForecast :=
  ⟨"Sunny", some 1, 0, 0, 0, "N", "N/A", "N/A", 0, 0, "N/A", "N/A", "N/A",
   some 1747699200, "2025-05-20", "Tuesday"⟩

/-- The same icon on the following day. -/
def awDayB : WN.AWForecast :=
  { awDayA with
      date_obj := some 1747785600
      date_str := "2025-05-21"
      day_name := "Wednesday" }

/-- A `weather_notifier` configuration with every required variable set and
numeric fields valid, but `FORECAST_DAYS` set to the non-numeric "abc". -/
def cfgDaysAbc : WN.Config :=
  ⟨some "AK", some "user@gmail", some "pw", some "to@example",
   some "51.5", some "-0.1", none, some "abc"⟩

/-- `cfgDaysAbc` with a valid `FORECAST_DAYS`. -/
def cfgValid : WN.Config := { cfgDaysAbc with forecast_days := some "5" }

/-- `cfgValid` with the recipient address unset. -/
def cfgNoRecipient : WN.Config := { cfgValid with to_email := none }

/-- A `function_app` configuration with every required variable set. -/
def faCfgValid : FA.FAConfig :=
  ⟨some "OK", some "user@gmail", some "pw", some "to@example",
   some "51.5", some "-0.1", none⟩

/-- `awDayA`'s icon on the following day, but a different icon number. -/
def awDayBbad : WN.AWForecast :=
  { awDayB with icon := some 2 }

/-- A canonical one-call forecast record. -/
def ocFcSample : FA.OCForecast :=
  ⟨"Light rain", "10d", 0, 0, 0, "SSW", 55, 0, 0, 0, .str "N/A",
   "05:41AM UTC", "07:02PM UTC", 1747699200, "2025-05-20", "Tuesday"⟩

end Samples

theorem ratFloor_eq_floor (q : ℚ) : ratFloor q = ⌊q⌋ := Rat.floor_def.symm

theorem pyTrunc_of_nonneg {q : ℚ} (h : 0 ≤ q) : pyTrunc q = ⌊q⌋ := by
  rw [Rat.floor_def, pyTrunc]
  exact Int.tdiv_eq_ediv (Rat.num_nonneg.mpr h) (Int.natCast_nonneg _)

theorem pyTrunc_intCast (d : Int) : pyTrunc ((d : ℚ)) = d := by
  simp [pyTrunc, Rat.num_intCast, Rat.den_intCast]

theorem compass_idx_period {d : Int} (h : 0 ≤ d) :
    (pyTrunc (((d : ℚ) + 11.25) / 22.5)).emod 16
      = (pyTrunc ((((d + 360 : Int) : ℚ) + 11.25) / 22.5)).emod 16 := by
  have hd : (0 : ℚ) ≤ (d : ℚ) := by exact_mod_cast h
  have hq : (0 : ℚ) ≤ ((d : ℚ) + 11.25) / 22.5 := by positivity
  have heq : ((((d + 360 : Int)) : ℚ) + 11.25) / 22.5
      = ((d : ℚ) + 11.25) / 22.5 + ((16 : Int) : ℚ) := by push_cast; ring
  have hq2 : (0 : ℚ) ≤ ((d : ℚ) + 11.25) / 22.5 + ((16 : Int) : ℚ) := by
    push_cast; linarith
  rw [heq, pyTrunc_of_nonneg hq, pyTrunc_of_nonneg hq2, Int.floor_add_int]
  show _ % (16 : Int) = _ % (16 : Int)
  omega

example :
    FA.get_wind_direction (some (.num ((10 : Int) : ℚ))) = "N" := by
  norm_num [FA.get_wind_direction, pyTrunc]
  decide

example : compass_spec_round 10 = "NNE" := by
  norm_num [compass_spec_round, roundHalfEven, ratFloor]
  decide

example :
    WN.get_wind_direction (some (.num ((10 : Int) : ℚ))) = "N" := by
  simp only [WN.get_wind_direction, pyTrunc_intCast]
  norm_num [pyTrunc]
  decide

theorem fa_wind_num (d : Int) :
    FA.get_wind_direction (some (.num (d : ℚ))) = compass_trunc_spec d := rfl

theorem wn_wind_num (d : Int) :
    WN.get_wind_direction (some (.num (d : ℚ))) = compass_trunc_spec d := by
  simp [WN.get_wind_direction, pyTrunc_intCast, compass_trunc_spec]

/-- Claim C5 (amended): on a numeric degree value `d` both implementations
return the table label at index `int((d + 11.25) / 22.5) mod 16`, with
Python's truncation toward zero rather than the spec's `round`; `None` and
any non-numeric string yield "N/A" (`function_app`'s variant also returns
"N/A" for every string, numeric or not, since the addition raises
`TypeError`). -/
theorem C5_compass_formula :
    (∀ d : Int,
      FA.get_wind_direction (some (.num (d : ℚ))) = compass_trunc_spec d ∧
      WN.get_wind_direction (some (.num (d : ℚ))) = compass_trunc_spec d) ∧
    FA.get_wind_direction none = "N/A" ∧
    WN.get_wind_direction none = "N/A" ∧
    (∀ s : String, FA.get_wind_direction (some (.str s)) = "N/A") ∧
    (∀ s : String, parsePyInt s = none →
      WN.get_wind_direction (some (.str s)) = "N/A") := by
  refine ⟨fun d => ⟨fa_wind_num d, wn_wind_num d⟩, rfl, rfl, fun s => rfl,
    fun s hs => ?_⟩
  simp [WN.get_wind_direction, hs]

theorem C5_compass_formula_witness :
    FA.get_wind_direction (some (.num ((200 : Int) : ℚ)))
        = compass_trunc_spec 200 ∧
    WN.get_wind_direction (some (.num ((200 : Int) : ℚ)))
        = compass_trunc_spec 200 ∧
    parsePyInt "abc" = none ∧
    WN.get_wind_direction (some (.str "abc")) = "N/A" :=
  ⟨(C5_compass_formula.1 200).1, (C5_compass_formula.1 200).2, by decide,
    C5_compass_formula.2.2.2.2 "abc" (by decide)⟩

/-- Claim C5, as frozen, is false: at 10 degrees the code returns "N"
(truncated index 0) while the spec's `round((10 + 11.25) / 22.5) mod 16`
gives index 1, "NNE". -/
theorem C5_counterexample :
    FA.get_wind_direction (some (.num ((10 : Int) : ℚ))) = "N" ∧
    WN.get_wind_direction (some (.num ((10 : Int) : ℚ))) = "N" ∧
    compass_spec_round 10 = "NNE" ∧ ("N" : String) ≠ "NNE" := by
  refine ⟨by norm_num [FA.get_wind_direction, pyTrunc]; decide, ?_,
    by norm_num [compass_spec_round, roundHalfEven, ratFloor]; decide,
    by decide⟩
  simp only [WN.get_wind_direction, pyTrunc_intCast]
  norm_num [pyTrunc]
  decide

/-- Claim C7 (amended): for non-negative degree values both implementations
are periodic with period 360, and `None` yields "N/A".  (For negative
values Python's `int()` truncates toward zero instead of flooring, which
breaks periodicity — see the counterexample.) -/
theorem C7_periodicity :
    (∀ d : Int, 0 ≤ d →
      (FA.get_wind_direction (some (.num (d : ℚ)))
        = FA.get_wind_direction (some (.num ((d + 360 : Int) : ℚ))) ∧
      WN.get_wind_direction (some (.num (d : ℚ)))
        = WN.get_wind_direction (some (.num ((d + 360 : Int) : ℚ))))) ∧
    FA.get_wind_direction none = "N/A" ∧
    WN.get_wind_direction none = "N/A" := by
  refine ⟨fun d hd => ?_, rfl, rfl⟩
  have hidx := compass_idx_period (d := d) hd
  constructor
  · rw [fa_wind_num d, fa_wind_num (d + 360)]
    simp only [compass_trunc_spec, hidx]
  · rw [wn_wind_num d, wn_wind_num (d + 360)]
    simp only [compass_trunc_spec, hidx]

theorem C7_periodicity_witness :
    (0 : Int) ≤ 45 ∧
    FA.get_wind_direction (some (.num ((45 : Int) : ℚ)))
      = FA.get_wind_direction (some (.num ((45 + 360 : Int) : ℚ))) ∧
    WN.get_wind_direction (some (.num ((45 : Int) : ℚ)))
      = WN.get_wind_direction (some (.num ((45 + 360 : Int) : ℚ))) :=
  ⟨by decide, (C7_periodicity.1 45 (by decide)).1,
    (C7_periodicity.1 45 (by decide)).2⟩

/-- Claim C7, as frozen, is false: -20 degrees maps to "N" but 340 degrees
maps to "NNW" in both implementations, because `int()` truncates toward
zero on the negative quotient. -/
theorem C7_counterexample :
    FA.get_wind_direction (some (.num ((-20 : Int) : ℚ))) = "N" ∧
    FA.get_wind_direction (some (.num ((-20 + 360 : Int) : ℚ))) = "NNW" ∧
    WN.get_wind_direction (some (.num ((-20 : Int) : ℚ))) = "N" ∧
    WN.get_wind_direction (some (.num ((-20 + 360 : Int) : ℚ))) = "NNW" ∧
    ("N" : String) ≠ "NNW" := by
  refine ⟨by norm_num [FA.get_wind_direction, pyTrunc]; decide,
    by norm_num [FA.get_wind_direction, pyTrunc]; decide, ?_, ?_, by decide⟩
  · simp only [WN.get_wind_direction, pyTrunc_intCast]
    norm_num [pyTrunc]
    decide
  · simp only [WN.get_wind_direction, pyTrunc_intCast]
    norm_num [pyTrunc]
    decide

theorem clampDays_idem (d : Int) :
    WN.clampDays (WN.clampDays d) = WN.clampDays d := by
  by_cases h : d = 1 ∨ d = 5 ∨ d = 10 ∨ d = 15 <;>
    norm_num [WN.clampDays, h]

/-- Claim C6 (amended): a requested day count in the supported set
{1, 5, 10, 15} is used unchanged; any other value is replaced by the
default 5 (with a warning) — not by the nearest supported value — and the
forecast fetch behaves exactly as if 5 had been requested. -/
theorem C6_day_clamping :
    (∀ d : Int,
      ((d = 1 ∨ d = 5 ∨ d = 10 ∨ d = 15) → WN.clampDays d = d) ∧
      (¬(d = 1 ∨ d = 5 ∨ d = 10 ∨ d = 15) → WN.clampDays d = 5)) ∧
    (∀ (d : Int) (resp : Option (Option (List WN.AWDaily))),
      WN.get_accuweather_forecast d resp
        = WN.get_accuweather_forecast (WN.clampDays d) resp) := by
  refine ⟨fun d => ⟨fun h => ?_, fun h => ?_⟩, fun d resp => ?_⟩
  · simp [WN.clampDays, h]
  · simp [WN.clampDays, h]
  · simp only [WN.get_accuweather_forecast, clampDays_idem]

theorem C6_day_clamping_witness :
    WN.clampDays 10 = 10 ∧ WN.clampDays 7 = 5 ∧
    WN.get_accuweather_forecast 7 none
      = WN.get_accuweather_forecast (WN.clampDays 7) none :=
  ⟨(C6_day_clamping.1 10).1 (by decide), (C6_day_clamping.1 7).2 (by decide),
    C6_day_clamping.2 7 none⟩

/-- Claim C6, as frozen, is false: a request for 14 days is replaced by the
default 5, not by the nearest supported value 15. -/
theorem C6_counterexample :
    WN.clampDays 14 = 5 ∧ nearest_supported_spec 14 = 15 ∧
    WN.clampDays 14 ≠ nearest_supported_spec 14 := by decide

/-- Claim C3 (the code at the failing input): with every required variable
present and numerically valid but FORECAST_DAYS = "abc", `main` raises an
uncaught ValueError at `int(os.getenv("FORECAST_DAYS", "5"))` — before the
missing-variable check, before any HTTP call and before any email — instead
of returning a `Skipped*` outcome.  With a parseable day count the same
validation does short-circuit: a missing recipient yields the
missing-configuration outcome with no HTTP call. -/
theorem C3_config_crash :
    WN.main cfgDaysAbc (some (some "LK")) (some (some [awEmptyDaily]))
        (fun _ => none) = (.Crashed, []) ∧
    WN.main cfgNoRecipient (some (some "LK")) (some (some [awEmptyDaily]))
        (fun _ => none) = (.SkippedMissingConfig, []) := by decide

/-- Claim C9: in both variants, a fetch that yields an empty forecast
sequence is falsy in the `if forecast_data:` test, so the run takes the
failure branch: the outcome is the fetch-failure skip, never `Sent`, and no
email send is performed. -/
theorem C9_empty_forecast :
    (∀ (cfg : WN.Config) (locResp : Option (Option String))
        (fcResp : Option (Option (List WN.AWDaily)))
        (fetchIcon : String → Option Bytes) (fdays : Int) (k : String),
      parsePyInt (cfg.forecast_days.getD "5") = some fdays →
      WN.requiredOk cfg = true →
      (parsePyFloat (cfg.lat.getD "")).isSome = true →
      (parsePyFloat (cfg.lon.getD "")).isSome = true →
      1 ≤ fdays → fdays ≤ 15 →
      WN.get_accuweather_location_key locResp = some k →
      WN.get_accuweather_forecast fdays fcResp = some [] →
      WN.main cfg locResp fcResp fetchIcon
        = (.SkippedFetchFailure, [.httpLocation, .httpForecast]) ∧
      (WN.main cfg locResp fcResp fetchIcon).1 ≠ .Sent ∧
      WN.Action.emailSend ∉ (WN.main cfg locResp fcResp fetchIcon).2) ∧
    (∀ (cfg : FA.FAConfig) (resp : Option FA.OCResp)
        (fetchIcon : String → Option Bytes),
      FA.requiredOk cfg = true →
      (parsePyFloat (cfg.lat.getD "")).isSome = true →
      (parsePyFloat (cfg.lon.getD "")).isSome = true →
      FA.get_weekly_weather resp = some [] →
      FA.WeatherAlert cfg resp fetchIcon
        = (.SkippedFetchFailure, [.httpWeather]) ∧
      (FA.WeatherAlert cfg resp fetchIcon).1 ≠ .Sent ∧
      FA.FAAction.emailSend ∉ (FA.WeatherAlert cfg resp fetchIcon).2) := by
  constructor
  · intro cfg locResp fcResp fetchIcon fdays k hp hro hlat hlon h1 h15 hkey hfc
    have hmain : WN.main cfg locResp fcResp fetchIcon
        = (.SkippedFetchFailure, [.httpLocation, .httpForecast]) := by
      simp [WN.main, hp, hro, hlat, hlon, h1, h15, hkey, hfc]
    refine ⟨hmain, ?_, ?_⟩ <;> rw [hmain] <;> decide
  · intro cfg resp fetchIcon hro hlat hlon hfc
    have hmain : FA.WeatherAlert cfg resp fetchIcon
        = (.SkippedFetchFailure, [.httpWeather]) := by
      simp [FA.WeatherAlert, hro, hlat, hlon, hfc]
    refine ⟨hmain, ?_, ?_⟩ <;> rw [hmain] <;> decide

theorem C9_empty_forecast_witness :
    WN.main cfgValid (some (some "LK")) (some (some [])) (fun _ => none)
      = (.SkippedFetchFailure, [.httpLocation, .httpForecast]) ∧
    FA.WeatherAlert faCfgValid (some ⟨some [ocToday]⟩) (fun _ => none)
      = (.SkippedFetchFailure, [.httpWeather]) :=
  ⟨(C9_empty_forecast.1 cfgValid (some (some "LK")) (some (some []))
      (fun _ => none) 5 "LK" (by decide) (by decide) (by decide) (by decide)
      (by decide) (by decide) rfl
      (by simp [WN.get_accuweather_forecast, WN.clampDays])).1,
    (C9_empty_forecast.2 faCfgValid (some ⟨some [ocToday]⟩) (fun _ => none)
      (by decide) (by decide) (by decide) (by decide)).1⟩

theorem pyRound1_zero : pyRound1 0 = 0 := by
  norm_num [pyRound1, roundHalfEven, ratFloor]

/-- Claim C1 (the code at the failing input): in the one-call adapter,
`humidity` is read by direct subscript, so a day entry without it raises
`KeyError`, the exception handler discards the whole fetch, and every other
day is lost with it — the run then sends nothing.  The same two days parse
fine once `humidity` is present, and the `.get`-accessed optional fields do
degrade per-field to their sentinels ("N/A"/0), as does every field of the
AccuWeather adapter. -/
theorem C1_missing_field_sentinels :
    FA.get_weekly_weather (some ⟨some [ocToday, ocDay1, ocDay2noHum]⟩)
      = none ∧
    (FA.get_weekly_weather (some ⟨some [ocToday, ocDay1, ocDay2]⟩)).map
      List.length = some 2 ∧
    (FA.parse_oc_daily ocDay2noOpt).map
      (fun f => (f.uv_index, f.wind_direction)) = some (.str "N/A", "N/A") ∧
    WN.get_accuweather_forecast 5 (some (some [awEmptyDaily]))
      = some [WN.parse_aw_daily awEmptyDaily] ∧
    (WN.parse_aw_daily awEmptyDaily).humidity = "N/A" ∧
    (WN.parse_aw_daily awEmptyDaily).dew_point = "N/A" ∧
    (WN.parse_aw_daily awEmptyDaily).uv_index = "N/A" ∧
    (WN.parse_aw_daily awEmptyDaily).sunrise = "N/A" ∧
    (WN.parse_aw_daily awEmptyDaily).sunset = "N/A" ∧
    (WN.parse_aw_daily awEmptyDaily).wind_direction = "N/A" ∧
    (WN.parse_aw_daily awEmptyDaily).date_str = "N/A" ∧
    (WN.parse_aw_daily awEmptyDaily).wind_speed = 0 ∧
    (WN.parse_aw_daily awEmptyDaily).high_temp = 0 ∧
    (WN.parse_aw_daily awEmptyDaily).precipitation = 0 ∧
    (WN.parse_aw_daily awEmptyDaily).precip_chance = 0 := by
  refine ⟨by decide, by decide, by decide, ?_, rfl, rfl, rfl, rfl, rfl, rfl,
    rfl, rfl, ?_, ?_, rfl⟩
  · simp [WN.get_accuweather_forecast, WN.clampDays, List.mergeSort_singleton]
  · show pyRound1 ((0 : ℚ)) = 0
    exact pyRound1_zero
  · show pyRound1 ((0 : ℚ) + 0 + 0) = 0
    norm_num [pyRound1_zero]

theorem parse_oc_all_forall₂ {l : List FA.OCDaily} {out : List FA.OCForecast}
    (h : FA.parse_oc_all l = some out) :
    List.Forall₂ (fun d f => FA.parse_oc_daily d = some f) l out := by
  induction l generalizing out with
  | nil =>
    simp only [FA.parse_oc_all, Option.some_inj] at h
    subst h; constructor
  | cons d ds ih =>
    simp only [FA.parse_oc_all] at h
    cases hd : FA.parse_oc_daily d with
    | none => rw [hd] at h; cases h
    | some f =>
      rw [hd] at h
      cases hall : FA.parse_oc_all ds with
      | none => rw [hall] at h; cases h
      | some fs =>
        rw [hall] at h
        cases h
        exact List.Forall₂.cons hd (ih hall)

theorem forall₂_exists_left {α β : Type _} {rel : α → β → Prop}
    {l : List α} {out : List β} (h : List.Forall₂ rel l out) {fb : β}
    (hm : fb ∈ out) : ∃ a ∈ l, rel a fb := by
  induction h with
  | nil => cases hm
  | cons hrel htail ih =>
    rcases List.mem_cons.mp hm with h1 | h2
    · subst h1; exact ⟨_, List.mem_cons_self _ _, hrel⟩
    · rcases ih h2 with ⟨a, ha, hr⟩
      exact ⟨a, List.mem_cons_of_mem _ ha, hr⟩

theorem forall₂_pairwise_transfer {α β : Type _} {rel : α → β → Prop}
    {R : α → α → Prop} {S : β → β → Prop}
    {l : List α} {out : List β} (h : List.Forall₂ rel l out)
    (hR : l.Pairwise R)
    (compat : ∀ a b fa fb, rel a fa → rel b fb → R a b → S fa fb) :
    out.Pairwise S := by
  induction h with
  | nil => constructor
  | @cons a fa l' out' hrel htail ih =>
    cases hR with
    | cons hhead htl =>
      refine List.Pairwise.cons (fun fb hfb => ?_) (ih htl)
      rcases forall₂_exists_left htail hfb with ⟨b, hb, hrb⟩
      exact compat a b fa fb hrel hrb (hhead b hb)

theorem parse_oc_daily_dt {d : FA.OCDaily} {f : FA.OCForecast}
    (h : FA.parse_oc_daily d = some f) : d.dt = some f.date_obj := by
  obtain ⟨ws?, t?, wsp, wdg, hum?, dew, rain, pop, uvi, sr?, ss?, dt?⟩ := d
  rcases ws? with _ | ws
  · exact Option.noConfusion h
  rcases ws with _ | ⟨w0, ws'⟩
  · exact Option.noConfusion h
  obtain ⟨desc?, icon?⟩ := w0
  rcases desc? with _ | desc
  · exact Option.noConfusion h
  rcases icon? with _ | icon
  · exact Option.noConfusion h
  rcases t? with _ | ⟨tmax?, tmin?⟩
  · exact Option.noConfusion h
  rcases tmax? with _ | tmax
  · exact Option.noConfusion h
  rcases tmin? with _ | tmin
  · exact Option.noConfusion h
  rcases hum? with _ | hum
  · exact Option.noConfusion h
  rcases sr? with _ | sr
  · exact Option.noConfusion h
  rcases ss? with _ | ss
  · exact Option.noConfusion h
  rcases dt? with _ | dt
  · exact Option.noConfusion h
  have h2 : some f.date_obj = some dt :=
    congrArg (Option.map FA.OCForecast.date_obj) h.symm
  exact h2.symm

/-- Claim C10: the one-call adapter parses exactly `data["daily"][1:8]` —
the current day (index 0) is excluded and at most 7 records come back, in
payload order (entry `i` of the result comes from entry `1 + i` of the
payload); a one-entry `daily` array gives the empty forecast, which the
orchestrator's `if weekly_data:` then treats as a fetch failure: no email
is sent. -/
theorem C10_drop_first_take_seven :
    (∀ (ds : List FA.OCDaily) (out : List FA.OCForecast),
      FA.get_weekly_weather (some ⟨some ds⟩) = some out →
      out.length ≤ 7 ∧ out.length = min (ds.length - 1) 7 ∧
      ∀ (i : Nat) (hi : i < out.length), ∃ hd : 1 + i < ds.length,
        FA.parse_oc_daily (ds.get ⟨1 + i, hd⟩) = some (out.get ⟨i, hi⟩)) ∧
    (∀ d0 : FA.OCDaily,
      FA.get_weekly_weather (some ⟨some [d0]⟩) = some []) ∧
    (∀ (cfg : FA.FAConfig) (resp : Option FA.OCResp)
        (fetchIcon : String → Option Bytes),
      FA.requiredOk cfg = true →
      (parsePyFloat (cfg.lat.getD "")).isSome = true →
      (parsePyFloat (cfg.lon.getD "")).isSome = true →
      FA.get_weekly_weather resp = some [] →
      FA.WeatherAlert cfg resp fetchIcon
        = (.SkippedFetchFailure, [.httpWeather]) ∧
      FA.FAAction.emailSend ∉ (FA.WeatherAlert cfg resp fetchIcon).2) := by
  refine ⟨fun ds out h => ?_, fun d0 => rfl, fun cfg resp fetchIcon hro hlat hlon hfc => ?_⟩
  · have h2 := parse_oc_all_forall₂ (l := (ds.drop 1).take 7) h
    have hlen : ((ds.drop 1).take 7).length = out.length := h2.length_eq
    have hslice : ((ds.drop 1).take 7).length = min 7 (ds.length - 1) := by
      simp [List.length_take, List.length_drop]
    have hget := (List.forall₂_iff_get.mp h2).2
    refine ⟨by omega, by omega, fun i hi => ?_⟩
    have hi1 : i < ((ds.drop 1).take 7).length := by omega
    have hd : 1 + i < ds.length := by omega
    refine ⟨hd, ?_⟩
    have := hget i hi1 hi
    have hsg : ((ds.drop 1).take 7).get ⟨i, hi1⟩ = ds.get ⟨1 + i, hd⟩ := by
      simp only [List.get_eq_getElem, List.getElem_take, List.getElem_drop]
    rw [hsg] at this
    exact this
  · have hmain : FA.WeatherAlert cfg resp fetchIcon
        = (.SkippedFetchFailure, [.httpWeather]) := by
      simp [FA.WeatherAlert, hro, hlat, hlon, hfc]
    refine ⟨hmain, ?_⟩
    rw [hmain]
    decide

theorem C10_drop_first_take_seven_witness :
    (FA.get_weekly_weather (some ⟨some [ocToday]⟩) = some [] ∧
      ([] : List FA.OCForecast).length ≤ 7) ∧
    FA.WeatherAlert faCfgValid (some ⟨some [ocToday]⟩) (fun _ => none)
      = (.SkippedFetchFailure, [.httpWeather]) :=
  ⟨⟨C10_drop_first_take_seven.2.1 ocToday,
    (C10_drop_first_take_seven.1 [ocToday] [] rfl).1⟩,
    (C10_drop_first_take_seven.2.2 faCfgValid (some ⟨some [ocToday]⟩)
      (fun _ => none) (by decide) (by decide) (by decide) rfl).1⟩

theorem awLe_iff {a b : WN.AWForecast} :
    WN.awLe a b = true ↔ WN.dateKey a ≤ WN.dateKey b := by
  simp [WN.awLe]

theorem awLe_trans (a b c : WN.AWForecast) (hab : WN.awLe a b = true)
    (hbc : WN.awLe b c = true) : WN.awLe a c = true := by
  rw [awLe_iff] at *
  omega

theorem awLe_total (a b : WN.AWForecast) :
    (WN.awLe a b || WN.awLe b a) = true := by
  simp only [Bool.or_eq_true, awLe_iff]
  omega

theorem parse_aw_date_obj {d : WN.AWDaily} {e : Int}
    (he : d.epochDate = some e) (hne : e ≠ 0) :
    (WN.parse_aw_daily d).date_obj = some e := by
  simp [WN.parse_aw_daily, he, hne]

/-- Claim C4: on a well-formed payload — every day carrying a truthy epoch
date, no duplicate epoch dates, and day count within the request — the
AccuWeather adapter emits exactly one record per payload day, sorted by
strictly ascending date with no duplicate dates; the one-call adapter (which
does not sort) emits its forecast window in payload order, so a payload
whose forecast days carry ascending dates yields the same shape. -/
theorem C4_adapter_shape :
    (∀ (days : Int) (l : List WN.AWDaily),
      (∀ d ∈ l, ∃ e : Int, d.epochDate = some e ∧ e ≠ 0) →
      (l.map WN.AWDaily.epochDate).Nodup →
      l.length ≤ (WN.clampDays days).toNat →
      ∃ out, WN.get_accuweather_forecast days (some (some l)) = some out ∧
        out.length = l.length ∧
        out.Pairwise (fun a b => WN.dateKey a < WN.dateKey b) ∧
        (out.map WN.AWForecast.date_obj).Nodup) ∧
    (∀ (ds : List FA.OCDaily) (out : List FA.OCForecast),
      FA.get_weekly_weather (some ⟨some ds⟩) = some out →
      ((ds.drop 1).take 7).Pairwise
        (fun a b => ∀ x y : Int, a.dt = some x → b.dt = some y → x < y) →
      out.length = min (ds.length - 1) 7 ∧
      out.Pairwise (fun a b => a.date_obj < b.date_obj) ∧
      (out.map FA.OCForecast.date_obj).Nodup) := by
  constructor
  · intro days l hep hnd hlen
    set fs := l.map WN.parse_aw_daily with hfs
    set ms := fs.mergeSort WN.awLe with hms
    have hperm : ms.Perm fs := List.mergeSort_perm fs WN.awLe
    have hlenm : ms.length = l.length := by
      rw [hperm.length_eq, hfs, List.length_map]
    have hpt : ∀ d ∈ l, (WN.parse_aw_daily d).date_obj = d.epochDate := by
      intro d hd
      obtain ⟨e, he, hne⟩ := hep d hd
      rw [parse_aw_date_obj he hne, he]
    have hobj : fs.map WN.AWForecast.date_obj = l.map WN.AWDaily.epochDate := by
      rw [hfs, List.map_map]
      exact List.map_congr_left hpt
    have hobjnd : (ms.map WN.AWForecast.date_obj).Nodup := by
      rw [(hperm.map WN.AWForecast.date_obj).nodup_iff, hobj]
      exact hnd
    have hkeynd : (ms.map WN.dateKey).Nodup := by
      rw [(hperm.map WN.dateKey).nodup_iff, hfs, List.map_map]
      have h2 : l.map (WN.dateKey ∘ WN.parse_aw_daily)
          = (l.map WN.AWDaily.epochDate).map (fun o => o.getD 0) := by
        rw [List.map_map]
        refine List.map_congr_left (fun d hd => ?_)
        obtain ⟨e, he, hne⟩ := hep d hd
        simp [Function.comp, WN.dateKey, parse_aw_date_obj he hne, he]
      rw [h2]
      refine hnd.map_on ?_
      intro x hx y hy hxy
      obtain ⟨dx, hdx, rfl⟩ := List.mem_map.mp hx
      obtain ⟨dy, hdy, rfl⟩ := List.mem_map.mp hy
      obtain ⟨ex, hex, _⟩ := hep dx hdx
      obtain ⟨ey, hey, _⟩ := hep dy hdy
      rw [hex, hey] at hxy ⊢
      simpa using hxy
    have hsle : ms.Pairwise (fun a b => WN.awLe a b = true) :=
      List.sorted_mergeSort awLe_trans awLe_total fs
    have hslt : ms.Pairwise (fun a b => WN.dateKey a < WN.dateKey b) := by
      have hne2 : ms.Pairwise (fun a b => WN.dateKey a ≠ WN.dateKey b) := by
        have h3 : List.Pairwise (· ≠ ·) (ms.map WN.dateKey) := hkeynd
        exact List.pairwise_map.mp h3
      exact (hsle.and hne2).imp
        (fun h => lt_of_le_of_ne (awLe_iff.mp h.1) h.2)
    have htake : ms.take (WN.clampDays days).toNat = ms :=
      List.take_of_length_le (by omega)
    refine ⟨ms, ?_, hlenm, hslt, hobjnd⟩
    show some ((fs.mergeSort WN.awLe).take (WN.clampDays days).toNat) = some ms
    rw [← hms, htake]
  · intro ds out h hasc
    have h' : FA.parse_oc_all ((ds.drop 1).take 7) = some out := h
    have h2 := parse_oc_all_forall₂ h' 
    have hlen : ((ds.drop 1).take 7).length = out.length := h2.length_eq
    have hslice : ((ds.drop 1).take 7).length = min 7 (ds.length - 1) := by
      simp [List.length_take, List.length_drop]
    have hlt : out.Pairwise (fun a b => a.date_obj < b.date_obj) := by
      refine forall₂_pairwise_transfer h2 hasc ?_
      intro a b fa fb hpa hpb hR
      exact hR fa.date_obj fb.date_obj (parse_oc_daily_dt hpa)
        (parse_oc_daily_dt hpb)
    refine ⟨by omega, hlt, ?_⟩
    have h3 : out.Pairwise
        (fun a b => a.date_obj ≠ b.date_obj) :=
      hlt.imp (fun h => by omega)
    exact List.pairwise_map.mpr h3

theorem C4_adapter_shape_witness :
    (∃ out, WN.get_accuweather_forecast 5
        (some (some [awDailyAt 100, awDailyAt 200])) = some out ∧
      out.length = [awDailyAt 100, awDailyAt 200].length ∧
      out.Pairwise (fun a b => WN.dateKey a < WN.dateKey b) ∧
      (out.map WN.AWForecast.date_obj).Nodup) ∧
    (([] : List FA.OCForecast).length
        = min (([ocToday] : List FA.OCDaily).length - 1) 7 ∧
      ([] : List FA.OCForecast).Pairwise
        (fun a b => a.date_obj < b.date_obj) ∧
      (([] : List FA.OCForecast).map FA.OCForecast.date_obj).Nodup) :=
  ⟨C4_adapter_shape.1 5 [awDailyAt 100, awDailyAt 200]
      (by
        intro d hd
        rcases List.mem_cons.mp hd with rfl | hd2
        · exact ⟨100, rfl, by decide⟩
        rcases List.mem_cons.mp hd2 with rfl | hd3
        · exact ⟨200, rfl, by decide⟩
        cases hd3)
      (by decide) (by decide),
    C4_adapter_shape.2 [ocToday] [] rfl List.Pairwise.nil⟩

theorem summaryCid_ne_of_date_ne {d1 d2 k1 k2 : String}
    (hlen : d1.length = d2.length) (h : d1 ≠ d2) :
    WN.summaryCid d1 k1 ≠ WN.summaryCid d2 k2 := by
  intro he
  apply h
  have hd := congrArg String.data he
  simp only [WN.summaryCid, String.data_append, List.append_assoc] at hd
  have h1 := List.append_cancel_left hd
  have h2 := (List.append_inj h1 (by
    show d1.data.length = d2.data.length
    exact hlen)).1
  exact String.ext h2

theorem bytesTruthy_of_ne {b : Bytes} (h : b ≠ []) :
    WN.bytesTruthy b = true := by
  simp [WN.bytesTruthy, h]

/-- Claim C2 (amended): when two distinct days (distinct `date_str`) share
one icon reference, rendering fetches the reference exactly once and reuses
the cached bytes, but `embedded_images` receives one entry per day — the
same bytes attached under two different, day-specific content-ids — and the
summary and detail sections of each day reference that day's own content-id
(the reuse across sections is within a day, not across days). -/
theorem C2_icon_dedup :
    ∀ (d1 d2 : WN.AWForecast) (n : Nat) (b : Bytes)
      (fetchIcon : String → Option Bytes),
      d1.icon = some n → d2.icon = some n → n ≠ 0 →
      d1.date_str ≠ d2.date_str →
      fetchIcon (zfill2 n) = some b → b ≠ [] →
      (WN.render fetchIcon [d1, d2]).fetchedRefs = [zfill2 n] ∧
      (WN.render fetchIcon [d1, d2]).email_images
        = [(b, WN.summaryCid d1.date_str (zfill2 n)),
           (b, WN.summaryCid d2.date_str (zfill2 n))] ∧
      (WN.render fetchIcon [d1, d2]).summary
        = [.img (WN.summaryCid d1.date_str (zfill2 n)),
           .img (WN.summaryCid d2.date_str (zfill2 n))] ∧
      (WN.render fetchIcon [d1, d2]).detail
        = [.img (WN.summaryCid d1.date_str (zfill2 n)),
           .img (WN.summaryCid d2.date_str (zfill2 n))] ∧
      WN.summaryCid d1.date_str (zfill2 n)
        ≠ WN.summaryCid d2.date_str (zfill2 n) := by
  intro d1 d2 n b fetchIcon h1 h2 h3 h4 h5 h6
  have hb := bytesTruthy_of_ne h6
  have hcid : WN.summaryCid d1.date_str (zfill2 n)
      ≠ WN.summaryCid d2.date_str (zfill2 n) := by
    intro he
    apply h4
    have hd := congrArg String.data he
    simp only [WN.summaryCid, String.data_append, List.append_assoc] at hd
    have hx := List.append_cancel_left hd
    exact String.ext (List.append_cancel_right hx)
  refine ⟨?_, ?_, ?_, ?_, hcid⟩ <;>
    simp [WN.render, WN.summaryStep, WN.detailCell, h1, h2, h3, h5, hb,
      List.lookup, beq_self_eq_true, beq_eq_false_iff_ne.mpr hcid.symm, hcid]

theorem lookup_eq_some_mem {β : Type _} {l : List (String × β)} {k : String}
    {v : β} (h : l.lookup k = some v) : (k, v) ∈ l := by
  induction l with
  | nil => cases h
  | cons p t ih =>
    obtain ⟨k1, v1⟩ := p
    rw [List.lookup_cons] at h
    by_cases hk : k == k1
    · rw [hk] at h
      cases h
      have := eq_of_beq hk
      subst this
      exact List.mem_cons_self _ _
    · rw [Bool.eq_false_iff.mpr hk] at h
      exact List.mem_cons_of_mem _ (ih h)

theorem lookup_append_of_none {β : Type _} {l : List (String × β)}
    {k : String} (h : l.lookup k = none) (l₂ : List (String × β)) :
    (l ++ l₂).lookup k = l₂.lookup k := by
  induction l with
  | nil => rfl
  | cons p t ih =>
    obtain ⟨k1, v1⟩ := p
    rw [List.lookup_cons] at h
    rw [List.cons_append, List.lookup_cons]
    by_cases hk : k == k1
    · rw [hk] at h; cases h
    · rw [Bool.eq_false_iff.mpr hk] at h ⊢
      exact ih h

theorem lookup_append_of_some {β : Type _} {l : List (String × β)}
    {k : String} {v : β} (h : l.lookup k = some v)
    (l₂ : List (String × β)) : (l ++ l₂).lookup k = some v := by
  induction l with
  | nil => cases h
  | cons p t ih =>
    obtain ⟨k1, v1⟩ := p
    rw [List.lookup_cons] at h
    rw [List.cons_append, List.lookup_cons]
    by_cases hk : k == k1
    · rw [hk] at h ⊢; exact h
    · rw [Bool.eq_false_iff.mpr hk] at h ⊢
      exact ih h

theorem cacheInv_append {f : String → Option Bytes}
    {l₁ l₂ : List (String × Option Bytes)} (h1 : WN.CacheInv f l₁)
    (h2 : WN.CacheInv f l₂) : WN.CacheInv f (l₁ ++ l₂) := by
  intro p hp
  rcases List.mem_append.mp hp with h | h
  · exact h1 p h
  · exact h2 p h

theorem dayCid_elim {day : WN.AWForecast} {c : String}
    (h : WN.dayCid day = some c) :
    ∃ n, day.icon = some n ∧ n ≠ 0 ∧
      c = WN.summaryCid day.date_str (zfill2 n) := by
  unfold WN.dayCid at h
  rcases hi : day.icon with _ | n
  · simp only [hi] at h
    exact Option.noConfusion h
  · simp only [hi] at h
    by_cases hn : n = 0
    · rw [if_neg (by simp [hn])] at h
      cases h
    · rw [if_pos hn] at h
      cases h
      exact ⟨n, rfl, hn, rfl⟩


theorem summaryStep_no_icon (f : String → Option Bytes) (st : WN.RenderSt)
    {day : WN.AWForecast} (hi : day.icon = none) :
    WN.summaryStep f st day
      = { st with summary := st.summary ++ [.text day.weather_desc] } := by
  simp only [WN.summaryStep, hi]

theorem summaryStep_zero_icon (f : String → Option Bytes) (st : WN.RenderSt)
    {day : WN.AWForecast} (hi : day.icon = some 0) :
    WN.summaryStep f st day
      = { st with summary := st.summary ++ [.text day.weather_desc] } := by
  simp only [WN.summaryStep, hi, ne_eq, not_true_eq_false, reduceIte]

theorem summaryStep_fetch_fail (f : String → Option Bytes) (st : WN.RenderSt)
    {day : WN.AWForecast} {n : Nat} (hi : day.icon = some n) (hn : n ≠ 0)
    (hl : st.fetched_icons.lookup (zfill2 n) = none)
    (hf : f (zfill2 n) = none) :
    WN.summaryStep f st day =
      { st with
          fetched_icons := st.fetched_icons ++ [(zfill2 n, none)]
          summary := st.summary ++ [.text day.weather_desc]
          fetchedRefs := st.fetchedRefs ++ [zfill2 n] } := by
  simp only [WN.summaryStep, hi]
  rw [if_pos hn]
  simp only [hl, hf]
  rw [lookup_append_of_none hl]
  simp [List.lookup_cons, beq_self_eq_true, Option.join]

theorem summaryStep_fetch_ok (f : String → Option Bytes) (st : WN.RenderSt)
    {day : WN.AWForecast} {n : Nat} {b : Bytes}
    (hi : day.icon = some n) (hn : n ≠ 0)
    (hl : st.fetched_icons.lookup (zfill2 n) = none)
    (hf : f (zfill2 n) = some b) :
    WN.summaryStep f st day =
      { fetched_icons := st.fetched_icons ++ [(zfill2 n, some b)]
        email_images := st.email_images
          ++ [(b, WN.summaryCid day.date_str (zfill2 n))]
        summary := st.summary ++ [if WN.bytesTruthy b then
            .img (WN.summaryCid day.date_str (zfill2 n))
          else .text day.weather_desc]
        fetchedRefs := st.fetchedRefs ++ [zfill2 n] } := by
  simp only [WN.summaryStep, hi]
  rw [if_pos hn]
  simp only [hl, hf]
  rw [lookup_append_of_none hl]
  simp only [List.lookup_cons, beq_self_eq_true, Option.join]
  by_cases hb : WN.bytesTruthy b
  · simp [hb]
  · simp [Bool.eq_false_iff.mpr hb]

theorem summaryStep_cached_none (f : String → Option Bytes)
    (st : WN.RenderSt) {day : WN.AWForecast} {n : Nat}
    (hi : day.icon = some n) (hn : n ≠ 0)
    (hl : st.fetched_icons.lookup (zfill2 n) = some none) :
    WN.summaryStep f st day
      = { st with summary := st.summary ++ [.text day.weather_desc] } := by
  simp only [WN.summaryStep, hi]
  rw [if_pos hn]
  simp [hl, Option.join]

theorem summaryStep_cached_some (f : String → Option Bytes)
    (st : WN.RenderSt) {day : WN.AWForecast} {n : Nat} {b : Bytes}
    (hi : day.icon = some n) (hn : n ≠ 0)
    (hl : st.fetched_icons.lookup (zfill2 n) = some (some b)) :
    WN.summaryStep f st day =
      { st with
          email_images := st.email_images
            ++ (if WN.bytesTruthy b ∧ ¬ st.email_images.any
                  (fun e => e.2 == WN.summaryCid day.date_str (zfill2 n))
                then [(b, WN.summaryCid day.date_str (zfill2 n))] else [])
          summary := st.summary ++ [if WN.bytesTruthy b then
              .img (WN.summaryCid day.date_str (zfill2 n))
            else .text day.weather_desc] } := by
  simp only [WN.summaryStep, hi]
  rw [if_pos hn]
  simp only [hl]
  by_cases hcond : WN.bytesTruthy b ∧ ¬ st.email_images.any
      (fun e => e.2 == WN.summaryCid day.date_str (zfill2 n))
  · rw [if_pos hcond]
    simp only [hl, Option.join, if_pos hcond]
    by_cases hb : WN.bytesTruthy b
    · simp [hb]
    · exact absurd hcond.1 (Bool.eq_false_iff.mpr hb ▸ by simp [hb])
  · rw [if_neg hcond]
    simp only [hl, Option.join, if_neg hcond]
    by_cases hb : WN.bytesTruthy b
    · simp [hb]
    · simp [Bool.eq_false_iff.mpr hb]

theorem summaryCellSpec_eq_fail {f : String → Option Bytes}
    {day : WN.AWForecast} {n : Nat} (hi : day.icon = some n) (hn : n ≠ 0)
    (hf : f (zfill2 n) = none) :
    WN.summaryCellSpec f day = .text day.weather_desc := by
  simp only [WN.summaryCellSpec, hi]
  rw [if_pos hn]
  simp [hf]

theorem summaryCellSpec_eq_ok {f : String → Option Bytes}
    {day : WN.AWForecast} {n : Nat} {b : Bytes}
    (hi : day.icon = some n) (hn : n ≠ 0) (hf : f (zfill2 n) = some b) :
    WN.summaryCellSpec f day = if WN.bytesTruthy b then
        .img (WN.summaryCid day.date_str (zfill2 n))
      else .text day.weather_desc := by
  simp only [WN.summaryCellSpec, hi]
  rw [if_pos hn]
  simp [hf]

theorem summaryStep_spec (f : String → Option Bytes) (st : WN.RenderSt)
    (day : WN.AWForecast) (hc : WN.CacheInv f st.fetched_icons) :
    ∃ dext eext,
      (WN.summaryStep f st day).fetched_icons = st.fetched_icons ++ dext ∧
      WN.CacheInv f dext ∧
      (WN.summaryStep f st day).email_images = st.email_images ++ eext ∧
      (eext.map Prod.snd).Sublist (WN.dayCid day).toList ∧
      (∀ e ∈ eext, ∃ k, f k = some e.1) ∧
      (WN.summaryStep f st day).summary
        = st.summary ++ [WN.summaryCellSpec f day] ∧
      (∀ n, day.icon = some n → n ≠ 0 →
        (((WN.summaryStep f st day).fetched_icons).lookup
          (zfill2 n)).isSome) := by
  rcases hi : day.icon with _ | n
  · rw [summaryStep_no_icon f st hi]
    refine ⟨[], [], by simp, (by intro p hp; cases hp), by simp, by simp,
      (by intro e he; cases he), by simp [WN.summaryCellSpec, hi], ?_⟩
    intro n h
    cases h
  by_cases hn : n = 0
  · subst hn
    rw [summaryStep_zero_icon f st hi]
    refine ⟨[], [], by simp, (by intro p hp; cases hp), by simp, by simp,
      (by intro e he; cases he), by simp [WN.summaryCellSpec, hi], ?_⟩
    intro n h hnz
    cases h
    exact absurd rfl hnz
  rcases hl : st.fetched_icons.lookup (zfill2 n) with _ | cached
  · rcases hf : f (zfill2 n) with _ | b
    · rw [summaryStep_fetch_fail f st hi hn hl hf]
      refine ⟨[(zfill2 n, none)], [], rfl, ?_, by simp, by simp,
        (by intro e he; cases he),
        by simp [summaryCellSpec_eq_fail hi hn hf], ?_⟩
      · intro p hp
        rcases List.mem_singleton.mp hp with rfl
        exact hf.symm
      · intro n' h hnz
        cases h
        rw [lookup_append_of_none hl]
        simp [List.lookup_cons, beq_self_eq_true]
    · rw [summaryStep_fetch_ok f st hi hn hl hf]
      refine ⟨[(zfill2 n, some b)],
        [(b, WN.summaryCid day.date_str (zfill2 n))], rfl, ?_, rfl, ?_, ?_,
        by simp [summaryCellSpec_eq_ok hi hn hf], ?_⟩
      · intro p hp
        rcases List.mem_singleton.mp hp with rfl
        exact hf.symm
      · simp [WN.dayCid, hi, hn]
      · intro e he
        rcases List.mem_singleton.mp he with rfl
        exact ⟨zfill2 n, hf⟩
      · intro n' h hnz
        cases h
        rw [lookup_append_of_none hl]
        simp [List.lookup_cons, beq_self_eq_true]
  · have hcv : cached = f (zfill2 n) := hc _ (lookup_eq_some_mem hl)
    rcases cached with _ | b
    · rw [summaryStep_cached_none f st hi hn hl]
      refine ⟨[], [], by simp, (by intro p hp; cases hp), by simp, by simp,
        (by intro e he; cases he),
        by simp [summaryCellSpec_eq_fail hi hn hcv.symm], ?_⟩
      intro n' h hnz
      cases h
      simp [hl]
    · rw [summaryStep_cached_some f st hi hn hl]
      by_cases hcond : WN.bytesTruthy b ∧ ¬ st.email_images.any
          (fun e => e.2 == WN.summaryCid day.date_str (zfill2 n))
      · refine ⟨[], [(b, WN.summaryCid day.date_str (zfill2 n))], by simp,
          (by intro p hp; cases hp), by simp [hcond], ?_, ?_,
          by simp [summaryCellSpec_eq_ok hi hn hcv.symm], ?_⟩
        · simp [WN.dayCid, hi, hn]
        · intro e he
          rcases List.mem_singleton.mp he with rfl
          exact ⟨zfill2 n, hcv.symm⟩
        · intro n' h hnz
          cases h
          simp [hl]
      · refine ⟨[], [], by simp, (by intro p hp; cases hp),
          (by rw [if_neg hcond]), by simp, (by intro e he; cases he),
          by simp [summaryCellSpec_eq_ok hi hn hcv.symm], ?_⟩
        intro n' h hnz
        cases h
        simp [hl]

theorem lookup_isSome_append {β : Type _} {l l₂ : List (String × β)}
    {k : String} (h : (l.lookup k).isSome) :
    ((l ++ l₂).lookup k).isSome := by
  obtain ⟨v, hv⟩ := Option.isSome_iff_exists.mp h
  rw [lookup_append_of_some hv]
  rfl

theorem filterMap_cons_toList (day : WN.AWForecast)
    (fc : List WN.AWForecast) :
    (day :: fc).filterMap WN.dayCid
      = (WN.dayCid day).toList ++ fc.filterMap WN.dayCid := by
  cases h : WN.dayCid day <;> simp [List.filterMap_cons, h]

theorem summary_fold_spec (f : String → Option Bytes)
    (fc : List WN.AWForecast) : ∀ (st : WN.RenderSt),
    WN.CacheInv f st.fetched_icons →
    ∃ dext eext,
      (fc.foldl (WN.summaryStep f) st).fetched_icons
        = st.fetched_icons ++ dext ∧
      WN.CacheInv f dext ∧
      (fc.foldl (WN.summaryStep f) st).email_images
        = st.email_images ++ eext ∧
      (eext.map Prod.snd).Sublist (fc.filterMap WN.dayCid) ∧
      (∀ e ∈ eext, ∃ k, f k = some e.1) ∧
      (fc.foldl (WN.summaryStep f) st).summary
        = st.summary ++ fc.map (WN.summaryCellSpec f) ∧
      (∀ day ∈ fc, ∀ n, day.icon = some n → n ≠ 0 →
        (((fc.foldl (WN.summaryStep f) st).fetched_icons).lookup
          (zfill2 n)).isSome) := by
  induction fc with
  | nil =>
    intro st hc
    exact ⟨[], [], by simp, (by intro p hp; cases hp), by simp, by simp,
      (by intro e he; cases he), by simp, (by intro day hd; cases hd)⟩
  | cons day fc' ih =>
    intro st hc
    obtain ⟨d1, e1, hd1, hcd1, he1, hs1, ho1, hsum1, hpres1⟩ :=
      summaryStep_spec f st day hc
    have hc2 : WN.CacheInv f (WN.summaryStep f st day).fetched_icons := by
      rw [hd1]
      exact cacheInv_append hc hcd1
    obtain ⟨d2, e2, hd2, hcd2, he2, hs2, ho2, hsum2, hpres2⟩ :=
      ih (WN.summaryStep f st day) hc2
    have hfold : (day :: fc').foldl (WN.summaryStep f) st
        = fc'.foldl (WN.summaryStep f) (WN.summaryStep f st day) := rfl
    refine ⟨d1 ++ d2, e1 ++ e2, ?_, cacheInv_append hcd1 hcd2, ?_, ?_, ?_,
      ?_, ?_⟩
    · rw [hfold, hd2, hd1, List.append_assoc]
    · rw [hfold, he2, he1, List.append_assoc]
    · rw [List.map_append, filterMap_cons_toList]
      exact List.Sublist.append hs1 hs2
    · intro e he
      rcases List.mem_append.mp he with h | h
      · exact ho1 e h
      · exact ho2 e h
    · rw [hfold, hsum2, hsum1, List.append_assoc, List.map_cons]
      rfl
    · intro day' hd' n hin hn
      rcases List.mem_cons.mp hd' with rfl | hmem
      · rw [hfold, hd2]
        exact lookup_isSome_append (hpres1 n hin hn)
      · exact hpres2 day' hmem n hin hn

theorem detailCell_eq_spec {f : String → Option Bytes}
    {dict : List (String × Option Bytes)} (hc : WN.CacheInv f dict)
    {day : WN.AWForecast}
    (hpres : ∀ n, day.icon = some n → n ≠ 0 →
      ((dict.lookup (zfill2 n)).isSome)) :
    WN.detailCell dict day = WN.detailCellSpec f day := by
  by_cases hi0 : day.icon = none
  · simp [WN.detailCell, WN.detailCellSpec, hi0]
  obtain ⟨n, hi⟩ : ∃ n, day.icon = some n := by
    rcases h : day.icon with _ | n
    · exact absurd h hi0
    · exact ⟨n, rfl⟩
  by_cases hn : n = 0
  · subst hn
    simp [WN.detailCell, WN.detailCellSpec, hi]
  have h1 := hpres n hi hn
  obtain ⟨v, hv⟩ := Option.isSome_iff_exists.mp h1
  have hveq : v = f (zfill2 n) := hc _ (lookup_eq_some_mem hv)
  rw [hveq] at hv
  simp only [WN.detailCell, WN.detailCellSpec, hi, hv]
  rw [if_pos hn, if_pos hn]
  cases f (zfill2 n) <;> simp [Option.join]

theorem fa_fold_spec (f : String → Option Bytes)
    (fc : List FA.OCForecast) :
    ∀ st : List (Bytes × String) × List WN.Cell,
    (fc.foldl (FA.dayStep f) st).2 = st.2 ++ fc.map (FA.faCellSpec f) ∧
    (∀ e ∈ (fc.foldl (FA.dayStep f) st).1,
      e ∈ st.1 ∨ ∃ r, f r = some e.1) := by
  induction fc with
  | nil =>
    intro st
    exact ⟨by simp, fun e he => Or.inl he⟩
  | cons day fc' ih =>
    intro st
    have hfold : (day :: fc').foldl (FA.dayStep f) st
        = fc'.foldl (FA.dayStep f) (FA.dayStep f st day) := rfl
    rcases hf : f day.icon with _ | b
    · have hstep : FA.dayStep f st day
          = (st.1, st.2 ++ [.text "icon unavailable"]) := by
        simp [FA.dayStep, hf]
      have hcell : FA.faCellSpec f day = .text "icon unavailable" := by
        simp [FA.faCellSpec, hf]
      obtain ⟨ih1, ih2⟩ := ih (FA.dayStep f st day)
      refine ⟨?_, ?_⟩
      · rw [hfold, ih1, hstep, List.map_cons, hcell, List.append_assoc]
        rfl
      · intro e he
        rw [hfold] at he
        rcases ih2 e he with h | h
        · rw [hstep] at h
          exact Or.inl h
        · exact Or.inr h
    · have hstep : FA.dayStep f st day
          = (st.1 ++ [(b, "icon_" ++ day.date_str ++ "_" ++ day.icon)],
             st.2 ++ [.img ("icon_" ++ day.date_str ++ "_" ++ day.icon)]) := by
        simp [FA.dayStep, hf]
      have hcell : FA.faCellSpec f day
          = .img ("icon_" ++ day.date_str ++ "_" ++ day.icon) := by
        simp [FA.faCellSpec, hf]
      obtain ⟨ih1, ih2⟩ := ih (FA.dayStep f st day)
      refine ⟨?_, ?_⟩
      · rw [hfold, ih1, hstep, List.map_cons, hcell, List.append_assoc]
        rfl
      · intro e he
        rw [hfold] at he
        rcases ih2 e he with h | h
        · rw [hstep] at h
          rcases List.mem_append.mp h with h2 | h2
          · exact Or.inl h2
          · rcases List.mem_singleton.mp h2 with rfl
            exact Or.inr ⟨day.icon, hf⟩
        · exact Or.inr h


/-- Claim C8: an icon whose fetch fails degrades to a text fallback for that
day only.  Each day's summary and detail slot is a function of that day and
the fetcher alone (`summaryCellSpec`/`detailCellSpec`: a failed fetch gives
the text fallback, a successful one the image reference), the render covers
every day, `embedded_images` holds only successfully fetched bytes, and —
given the data-model invariant that no two days share a date (of the fixed
date format) — it has no duplicate content-ids.  The one-call variant
behaves alike with its per-day fetches. -/
theorem C8_icon_failure_degrades :
    (∀ (fetchIcon : String → Option Bytes) (fc : List WN.AWForecast),
      (fc.map WN.AWForecast.date_str).Nodup →
      (∀ a ∈ fc, ∀ b ∈ fc, a.date_str.length = b.date_str.length) →
      (WN.render fetchIcon fc).summary
        = fc.map (WN.summaryCellSpec fetchIcon) ∧
      (WN.render fetchIcon fc).detail
        = fc.map (WN.detailCellSpec fetchIcon) ∧
      (∀ e ∈ (WN.render fetchIcon fc).email_images,
        ∃ k, fetchIcon k = some e.1) ∧
      ((WN.render fetchIcon fc).email_images.map Prod.snd).Nodup) ∧
    (∀ (fetchIcon : String → Option Bytes) (fc : List FA.OCForecast),
      (FA.renderAll fetchIcon fc).2 = fc.map (FA.faCellSpec fetchIcon) ∧
      (∀ e ∈ (FA.renderAll fetchIcon fc).1, ∃ r, fetchIcon r = some e.1)) := by
  constructor
  · intro f fc hnd hlen
    have hc0 : WN.CacheInv f (([] : List (String × Option Bytes))) :=
      fun p hp => absurd hp (List.not_mem_nil p)
    obtain ⟨dext, eext, hd, hcd, he, hs, ho, hsum, hpres⟩ :=
      summary_fold_spec f fc ⟨[], [], [], []⟩ hc0
    have hemail : (WN.render f fc).email_images = eext := by
      show (fc.foldl (WN.summaryStep f) ⟨[], [], [], []⟩).email_images = eext
      rw [he]
      rfl
    refine ⟨?_, ?_, ?_, ?_⟩
    · show (fc.foldl (WN.summaryStep f) ⟨[], [], [], []⟩).summary = _
      rw [hsum]
      rfl
    · show fc.map (WN.detailCell
          (fc.foldl (WN.summaryStep f) ⟨[], [], [], []⟩).fetched_icons)
        = fc.map (WN.detailCellSpec f)
      refine List.map_congr_left (fun day hday => ?_)
      refine detailCell_eq_spec ?_ ?_
      · rw [hd]
        exact cacheInv_append hc0 hcd
      · intro n hin hn
        exact hpres day hday n hin hn
    · intro e hee
      rw [hemail] at hee
      exact ho e hee
    · rw [hemail]
      refine hs.nodup ?_
      have hnd2 : List.Pairwise (fun a b : String => a ≠ b)
          (fc.map WN.AWForecast.date_str) := hnd
      have hpw := List.pairwise_map.mp hnd2
      show List.Pairwise (fun a b : String => a ≠ b)
        (fc.filterMap WN.dayCid)
      rw [List.pairwise_filterMap]
      refine hpw.imp_of_mem ?_
      intro a b ha hb hne c hc1 c' hc2
      obtain ⟨na, hia, hna, rfl⟩ := dayCid_elim (Option.mem_def.mp hc1)
      obtain ⟨nb, hib, hnb, rfl⟩ := dayCid_elim (Option.mem_def.mp hc2)
      exact summaryCid_ne_of_date_ne (hlen a ha b hb) hne
  · intro f fc
    obtain ⟨h1, h2⟩ := fa_fold_spec f fc ([], [])
    refine ⟨by simpa using h1, fun e he => ?_⟩
    rcases h2 e he with h | h
    · cases h
    · exact h

theorem C8_icon_failure_degrades_witness :
    ((WN.render (fun k => if k = "01" then some [7] else none)
        [awDayA, awDayBbad]).summary
      = [awDayA, awDayBbad].map
          (WN.summaryCellSpec (fun k => if k = "01" then some [7] else none)) ∧
    (WN.render (fun k => if k = "01" then some [7] else none)
        [awDayA, awDayBbad]).detail
      = [awDayA, awDayBbad].map
          (WN.detailCellSpec (fun k => if k = "01" then some [7] else none)) ∧
    (∀ e ∈ (WN.render (fun k => if k = "01" then some [7] else none)
        [awDayA, awDayBbad]).email_images,
      ∃ k, (fun k => if k = "01" then some [7] else none) k = some e.1) ∧
    ((WN.render (fun k => if k = "01" then some [7] else none)
        [awDayA, awDayBbad]).email_images.map Prod.snd).Nodup) ∧
    ((FA.renderAll (fun _ => none) [ocFcSample]).2
      = [ocFcSample].map (FA.faCellSpec (fun _ => none)) ∧
    (∀ e ∈ (FA.renderAll (fun _ => none) [ocFcSample]).1,
      ∃ _r : String, (none : Option Bytes) = some e.1)) :=
  ⟨C8_icon_failure_degrades.1 (fun k => if k = "01" then some [7] else none)
      [awDayA, awDayBbad] (by decide) (by decide),
    C8_icon_failure_degrades.2 (fun _ => none) [ocFcSample]⟩

/-- Claim C2, as frozen, is false: two days (2025-05-20 and 2025-05-21)
sharing icon 1 yield TWO `email_images` entries — the same bytes under two
distinct date-qualified content-ids — and the two HTML `cid:` references
name different content-ids, though the icon is fetched only once. -/
theorem C2_counterexample :
    (WN.render (fun _ => some [7]) [awDayA, awDayB]).email_images.length
      = 2 ∧
    ¬ (WN.render (fun _ => some [7]) [awDayA, awDayB]).email_images.length
      = 1 ∧
    (WN.render (fun _ => some [7]) [awDayA, awDayB]).summary
      = [.img "summary_icon_2025-05-20_01",
         .img "summary_icon_2025-05-21_01"] ∧
    ("summary_icon_2025-05-20_01" : String)
      ≠ "summary_icon_2025-05-21_01" ∧
    (WN.render (fun _ => some [7]) [awDayA, awDayB]).fetchedRefs.length
      = 1 := by
  decide

theorem C2_icon_dedup_witness :
    (WN.render (fun _ => some [7]) [awDayA, awDayB]).fetchedRefs
      = [zfill2 1] ∧
    (WN.render (fun _ => some [7]) [awDayA, awDayB]).email_images
      = [([7], WN.summaryCid awDayA.date_str (zfill2 1)),
         ([7], WN.summaryCid awDayB.date_str (zfill2 1))] ∧
    (WN.render (fun _ => some [7]) [awDayA, awDayB]).summary
      = [.img (WN.summaryCid awDayA.date_str (zfill2 1)),
         .img (WN.summaryCid awDayB.date_str (zfill2 1))] ∧
    (WN.render (fun _ => some [7]) [awDayA, awDayB]).detail
      = [.img (WN.summaryCid awDayA.date_str (zfill2 1)),
         .img (WN.summaryCid awDayB.date_str (zfill2 1))] ∧
    WN.summaryCid awDayA.date_str (zfill2 1)
      ≠ WN.summaryCid awDayB.date_str (zfill2 1) :=
  C2_icon_dedup awDayA awDayB 1 [7] (fun _ => some [7]) rfl rfl (by decide)
    (by decide) rfl (by decide)
